import Mathlib

/- Shallow embedding of the adaptive failure-learning engine of
   src/ai_testing/adaptive/adaptive_testing_engine.py and of the insight
   aggregation of src/ai_testing/analytics/advanced_dashboard.py.

   Python strings are modelled as `List Char` (the source only manipulates
   ASCII text); Python floats as ℚ (every arithmetic operation the source
   performs on them — sums, division, min, comparisons — is exact on the
   values in range here); wall-clock timestamps (`datetime.now()`) are
   passed in explicitly as `Nat` (or, for the formatted id suffix, as
   `List Char`) parameters. -/

namespace AdaptiveEngine

/-- Number of positions at which `needle` occurs as a contiguous substring of
the haystack.  For a nonempty needle this counts exactly the match positions
Python's `str.count`/`in`/`re` machinery sees. -/
def occCount (needle : List Char) : List Char → Nat
  | [] => 0
  | c :: cs => (if needle.isPrefixOf (c :: cs) then 1 else 0) + occCount needle cs

/-- Python's substring test `needle in hay` (all needles in the source are
nonempty string literals). -/
def pyIn (needle hay : List Char) : Bool := occCount needle hay != 0

/-- Python's `str.lower()` restricted to ASCII, the only text the source
handles. -/
def lowerStr (s : List Char) : List Char := s.map Char.toLower

/-- Python's `str.replace(old, new)`: replace every non-overlapping
occurrence of `old`, scanning left to right.  (The source never calls it
with an empty `old`.) -/
def pyReplace (old new : List Char) : List Char → List Char
  | [] => []
  | c :: cs =>
    if old ≠ [] ∧ old.isPrefixOf (c :: cs) then
      new ++ pyReplace old new ((c :: cs).drop old.length)
    else
      c :: pyReplace old new cs
termination_by s => s.length
decreasing_by
  · simp only [List.length_drop, List.length_cons]
    rename_i h
    have : 1 ≤ old.length := by
      cases old with
      | nil => exact absurd rfl h.1
      | cons _ _ => simp
    omega
  · simp

/-- `_classify_failure` (adaptive_testing_engine.py lines 122-140): keyword
classification of an error message, case-insensitive, first matching row of
the ordered table wins, defaulting to `unknown`. -/
def _classify_failure (error_message : List Char) : List Char :=
  let e := lowerStr error_message
  if pyIn "timeout".data e || pyIn "wait".data e || pyIn "element not found".data e then
    "timing_issue".data
  else if pyIn "selector".data e || pyIn "locator".data e || pyIn "element".data e then
    "element_selector".data
  else if pyIn "network".data e || pyIn "connection".data e || pyIn "request".data e then
    "network_issue".data
  else if pyIn "assertion".data e || pyIn "expected".data e || pyIn "actual".data e then
    "assertion_failure".data
  else if pyIn "permission".data e || pyIn "access".data e || pyIn "forbidden".data e then
    "permission_issue".data
  else if pyIn "data".data e || pyIn "invalid".data e || pyIn "null".data e then
    "data_issue".data
  else
    "unknown".data

/-- `\s` (ASCII whitespace, as Python's `re` matches it). -/
def isWS (c : Char) : Bool :=
  c = ' ' || c = '\t' || c = '\n' || c = '\x0b' || c = '\x0c' || c = '\r'

/-- The character class `['\"]` of the extraction patterns. -/
def isQuoteChar (c : Char) : Bool := c = '\'' || c = '"'

/-- `\w` (ASCII word characters, the only ones appearing in the messages the
source handles). -/
def isWordChar (c : Char) : Bool := c.isAlphanum || c = '_'

/-- The CSS-selector character class `[#\.\[\]@\w\-:]` of the fourth
extraction pattern in `_extract_element_selector`. -/
def isSelChar (c : Char) : Bool :=
  c = '#' || c = '.' || c = '[' || c = ']' || c = '@' || isWordChar c || c = '-' || c = ':'

/-- Case-insensitive literal match of `word` at the head of `s`
(`re.IGNORECASE`); returns the rest of `s` on success. -/
def ciPrefixRest (word s : List Char) : Option (List Char) :=
  match word, s with
  | [], rest => some rest
  | _ :: _, [] => none
  | w :: ws, c :: cs => if w.toLower = c.toLower then ciPrefixRest ws cs else none

/-- One attempt, anchored at the current position, of a pattern of the shape
`word\s+['\"]([^'\"]+)['\"]` (the `locator`/`element`/`selector` phrases of
`_extract_element_selector`).  The greedy pieces are deterministic here: the
whitespace run and the capture run are maximal, and no shorter run can be
followed by the required character, so backtracking never yields more. -/
def matchPhraseAt (word s : List Char) : Option (List Char) :=
  match ciPrefixRest word s with
  | none => none
  | some r1 =>
    let ws := r1.takeWhile isWS
    if ws = [] then none
    else
      match r1.dropWhile isWS with
      | [] => none
      | q :: r2 =>
        if isQuoteChar q then
          let cap := r2.takeWhile (fun c => !isQuoteChar c)
          if cap = [] then none
          else
            match r2.dropWhile (fun c => !isQuoteChar c) with
            | [] => none
            | _ :: _ => some cap
        else none

/-- One attempt, anchored at the current position, of the generic quoted
CSS-selector pattern `['\"]([#\.\[\]@\w\-:]+)['\"]`. -/
def matchCssAt (s : List Char) : Option (List Char) :=
  match s with
  | [] => none
  | q :: r1 =>
    if isQuoteChar q then
      let cap := r1.takeWhile isSelChar
      if cap = [] then none
      else
        match r1.dropWhile isSelChar with
        | [] => none
        | c :: _ => if isQuoteChar c then some cap else none
    else none

/-- `re.search`: try the anchored matcher at each position, left to right,
returning the first (leftmost) successful capture. -/
def reSearch (m : List Char → Option (List Char)) : List Char → Option (List Char)
  | [] => m []
  | c :: cs =>
    match m (c :: cs) with
    | some r => some r
    | none => reSearch m cs

/-- `_extract_element_selector` (adaptive_testing_engine.py lines 142-157):
try the four extraction patterns in order over the whole message, returning
the first pattern's leftmost capture. -/
def _extract_element_selector (error_message : List Char) : Option (List Char) :=
  match reSearch (matchPhraseAt "locator".data) error_message with
  | some r => some r
  | none =>
    match reSearch (matchPhraseAt "element".data) error_message with
    | some r => some r
    | none =>
      match reSearch (matchPhraseAt "selector".data) error_message with
      | some r => some r
      | none => reSearch matchCssAt error_message

/-- The context snapshot taken verbatim from the raw record
(`_extract_failure_pattern` lines 105-111).  `viewport` is a free-form dict
in the source, carried opaquely as association pairs. -/
structure FailureContext where
  browser : List Char
  viewport : List (List Char × List Char)
  duration : Nat
  url : List Char
  screenshot : List Char
deriving DecidableEq, Repr

/-- A raw test-result record as `record_test_failure` consumes it.  The
source reads fields with `dict.get` and a default; the record is modelled
with total fields carrying those defaults. -/
structure TestResultRecord where
  test_name : List Char := []
  status : List Char := []
  error_message : List Char := []
  browser : List Char := "unknown".data
  viewport : List (List Char × List Char) := []
  duration : Nat := 0
  url : List Char := []
  screenshot : List Char := []
deriving DecidableEq, Repr

/-- `TestFailurePattern` (adaptive_testing_engine.py lines 27-36). -/
structure TestFailurePattern where
  test_name : List Char
  failure_type : List Char
  error_message : List Char
  element_selector : Option (List Char)
  timestamp : Nat
  frequency : Nat := 1
  context : FailureContext
deriving DecidableEq, Repr

/-- `_extract_failure_pattern` (lines 90-120): `none` unless the status is
"failed", otherwise a fresh pattern (frequency 1) built from the classifier,
the selector extraction and the context snapshot.  `now` stands for
`datetime.now()`. -/
def _extract_failure_pattern (test_result : TestResultRecord) (now : Nat) :
    Option TestFailurePattern :=
  if test_result.status ≠ "failed".data then none
  else some
    { test_name := test_result.test_name
      failure_type := _classify_failure test_result.error_message
      error_message := test_result.error_message
      element_selector := _extract_element_selector test_result.error_message
      timestamp := now
      frequency := 1
      context :=
        { browser := test_result.browser
          viewport := test_result.viewport
          duration := test_result.duration
          url := test_result.url
          screenshot := test_result.screenshot } }

/-- The identity triple `_find_existing_pattern` (lines 159-166) compares:
test name, failure type and extracted locator (or its absence). -/
def patternIdentity (p : TestFailurePattern) :
    List Char × List Char × Option (List Char) :=
  (p.test_name, p.failure_type, p.element_selector)

/-- The combined effect of `_find_existing_pattern` and the body of
`record_test_failure` (lines 77-82): the first stored pattern with the same
identity is updated in place (frequency incremented, timestamp refreshed);
when none matches, the new pattern is appended at the end. -/
def insertPattern (fp : TestFailurePattern) (now : Nat) :
    List TestFailurePattern → List TestFailurePattern
  | [] => [fp]
  | p :: ps =>
    if patternIdentity p = patternIdentity fp then
      { p with frequency := p.frequency + 1, timestamp := now } :: ps
    else
      p :: insertPattern fp now ps

/-- `record_test_failure` (lines 71-88) on the in-memory store (persistence
is a write-through side effect outside the embedding): a non-"failed" record
is a no-op, otherwise the extracted pattern is inserted. -/
def record_test_failure (store : List TestFailurePattern)
    (test_result : TestResultRecord) (now : Nat) : List TestFailurePattern :=
  match _extract_failure_pattern test_result now with
  | none => store
  | some fp => insertPattern fp now store

/-- `self.min_pattern_frequency` (line 65). -/
def min_pattern_frequency : Nat := 3

/-- `self.confidence_threshold` (line 66). -/
def confidence_threshold : ℚ := 7/10

/-- `AdaptiveRule` (lines 39-48). -/
structure AdaptiveRule where
  rule_id : List Char
  pattern : List Char
  suggested_fix : List Char
  confidence : ℚ
  success_rate : ℚ := 0
  created_at : Nat
  last_applied : Option Nat := none
deriving DecidableEq, Repr

/-- Keys in first-occurrence order: the iteration order of a Python dict or
`Counter` built by successive insertion. -/
def dedupFirst : List (List Char) → List (List Char)
  | [] => []
  | x :: xs => x :: (dedupFirst xs).filter (fun y => y ≠ x)

/-- Helper for `mostCommon1`: the first key (in the given order) whose count
in `l` is maximal — later keys replace the current best only when strictly
more frequent, as the stable descending sort behind `Counter.most_common`
leaves earlier-inserted keys first on ties. -/
def argmaxCount (l : List (List Char)) (best : List Char) :
    List (List Char) → List Char
  | [] => best
  | k :: ks => argmaxCount l (if l.count best < l.count k then k else best) ks

/-- `Counter(l).most_common(1)[0][0]`: the most frequent element of `l`,
earliest first occurrence winning ties.  (The source indexes the result only
on nonempty `l`.) -/
def mostCommon1 : List (List Char) → List Char
  | [] => []
  | x :: xs => argmaxCount (x :: xs) x (dedupFirst (x :: xs))

/-- `_create_timing_fix_suggestion` (lines 219-226). -/
def _create_timing_fix_suggestion (patterns : List TestFailurePattern) : List Char :=
  let common_selectors := patterns.filterMap (fun p => p.element_selector)
  if common_selectors ≠ [] then
    "Add explicit wait for element '".data ++ mostCommon1 common_selectors
      ++ "' with increased timeout (30s+)".data
  else
    "Add explicit waits and increase default timeout values".data

/-- `', '.join(…)`. -/
def joinComma : List (List Char) → List Char
  | [] => []
  | [x] => x
  | x :: y :: rest => x ++ ", ".data ++ joinComma (y :: rest)

/-- `_create_selector_fix_suggestion` (lines 228-235).  The source passes
`set(selectors[:3])` to the join; a Python set iterates in an unspecified
order, modelled here as first-occurrence order (no claim depends on it). -/
def _create_selector_fix_suggestion (patterns : List TestFailurePattern) : List Char :=
  let selectors := patterns.filterMap (fun p => p.element_selector)
  if selectors ≠ [] then
    "Update selectors to use more robust locators (data-testid, role-based). Problem selectors: ".data
      ++ joinComma (dedupFirst (selectors.take 3))
  else
    "Review element selectors and use more stable locator strategies".data

/-- `_create_assertion_fix_suggestion` (lines 237-250) defers to the external
MCP collaborator; that call is outside this embedding, so the function is
modelled by its local fallback (the `except` branch), the behaviour when the
collaborator is unavailable.  No claim depends on the collaborator's answer. -/
def _create_assertion_fix_suggestion (_patterns : List TestFailurePattern) : List Char :=
  "Review assertion logic, expected values, and test data".data

/-- `_create_rule_for_pattern_group` (lines 189-217).  `nowStr` stands for
the formatted `datetime.now()` suffix of the rule id, `now` for the creation
timestamp.  The source declares an `Optional` return type but every path
returns a rule, so the embedding returns one directly. -/
def _create_rule_for_pattern_group (failure_type : List Char)
    (patterns : List TestFailurePattern) (nowStr : List Char) (now : Nat) :
    AdaptiveRule :=
  let total_frequency : Nat := (patterns.map (fun p => p.frequency)).sum
  let avg_frequency : ℚ := (total_frequency : ℚ) / (patterns.length : ℚ)
  let confidence : ℚ := min (avg_frequency / 10) 1
  let suggested_fix :=
    if failure_type = "timing_issue".data then
      _create_timing_fix_suggestion patterns
    else if failure_type = "element_selector".data then
      _create_selector_fix_suggestion patterns
    else if failure_type = "network_issue".data then
      "Add network retry logic and longer timeouts for network requests".data
    else if failure_type = "assertion_failure".data then
      _create_assertion_fix_suggestion patterns
    else
      "Generic fix for ".data ++ failure_type
        ++ ": Review test logic and add error handling".data
  { rule_id := failure_type ++ "_".data ++ nowStr
    pattern := failure_type
    suggested_fix := suggested_fix
    confidence := confidence
    success_rate := 0
    created_at := now
    last_applied := none }

/-- `analyze_patterns_and_create_rules` (lines 168-187): keep patterns whose
frequency meets the minimum, group them by failure type (group order is the
defaultdict's key first-insertion order), build one rule per group, and keep
only the rules meeting the confidence threshold.  Returns `new_rules`
together with the updated `self.adaptive_rules` list. -/
def analyze_patterns_and_create_rules (store : List TestFailurePattern)
    (adaptive_rules : List AdaptiveRule) (nowStr : List Char) (now : Nat) :
    List AdaptiveRule × List AdaptiveRule :=
  let qualifying := store.filter (fun p => min_pattern_frequency ≤ p.frequency)
  let keys := dedupFirst (qualifying.map (fun p => p.failure_type))
  let new_rules := keys.filterMap (fun k =>
    let rule := _create_rule_for_pattern_group k
      (qualifying.filter (fun p => p.failure_type = k)) nowStr now
    if confidence_threshold ≤ rule.confidence then some rule else none)
  (new_rules, adaptive_rules ++ new_rules)

/-- The retry preamble of the `network_issue` transform (line 320). -/
def retryImport : List Char :=
  "import time\nfrom requests.adapters import HTTPAdapter\nfrom urllib3.util.retry import Retry\n".data

/-- `retry_import.strip()` (line 321): the preamble without its trailing
newline. -/
def retryImportStripped : List Char :=
  "import time\nfrom requests.adapters import HTTPAdapter\nfrom urllib3.util.retry import Retry".data

/-- `_apply_rule_to_content` (lines 298-325): the kind-specific guarded text
transforms, returning the (possibly) modified content and whether the rule
was marked applied. -/
def _apply_rule_to_content (content : List Char) (rule : AdaptiveRule) :
    List Char × Bool :=
  if rule.pattern = "timing_issue".data then
    if !pyIn "page.wait_for_selector".data content && pyIn "click(".data content then
      (pyReplace "page.click(".data
        "page.wait_for_selector(selector, timeout=30000)\n        page.click(".data
        content, true)
    else (content, false)
  else if rule.pattern = "element_selector".data then
    if !pyIn "data-testid".data content && pyIn "\"#".data content then
      ("# ADAPTIVE SUGGESTION: Consider using data-testid selectors for better stability\n".data
        ++ content, true)
    else (content, false)
  else if rule.pattern = "network_issue".data then
    if pyIn "requests.".data content && !pyIn "retry".data (lowerStr content) then
      if !pyIn retryImportStripped content then
        (retryImport ++ "\n".data ++ content, true)
      else (content, false)
    else (content, false)
  else (content, false)

end AdaptiveEngine

namespace Dashboard

open AdaptiveEngine (pyIn lowerStr)

/-- `AIInsight` (advanced_dashboard.py lines 39-48).  The free-form
`data_points` payload is untyped in the source and not modelled; no claim
touches it. -/
structure AIInsight where
  category : List Char
  title : List Char
  description : List Char
  severity : List Char
  recommendations : List (List Char)
  confidence : ℚ
deriving DecidableEq, Repr

/-- `_severity_score` (lines 436-438): severity rank with default 1. -/
def _severity_score (severity : List Char) : Nat :=
  if severity = "critical".data then 4
  else if severity = "high".data then 3
  else if severity = "medium".data then 2
  else if severity = "low".data then 1
  else 1

/-- The sort key of `generate_comprehensive_insights` line 130:
`(self._severity_score(x.severity), -x.confidence)`. -/
def insightKey (x : AIInsight) : Nat × ℚ := (_severity_score x.severity, -x.confidence)

/-- Lexicographic comparison of the sort keys. -/
def keyLe (a b : Nat × ℚ) : Bool := a.1 < b.1 || (a.1 = b.1 && a.2 ≤ b.2)

/-- Insertion step of the stable descending sort: the new element goes in
front of the first earlier element whose key is not greater than its own
(so on equal keys the element inserted later — originally earlier — stays
first, as Python's stable sort keeps it). -/
def insertDesc (x : AIInsight) : List AIInsight → List AIInsight
  | [] => [x]
  | y :: ys =>
    if keyLe (insightKey y) (insightKey x) then x :: y :: ys
    else y :: insertDesc x ys

/-- `insights.sort(key=lambda x: (self._severity_score(x.severity),
-x.confidence), reverse=True)` (line 130): Python's stable sort into
descending key order. -/
def sortInsights : List AIInsight → List AIInsight
  | [] => []
  | x :: xs => insertDesc x (sortInsights xs)

/-- The per-test outcome lists assembled by `_analyze_flaky_tests` (lines
239-245) over the scanned window: each run of `self.test_history[-20:]` is
reduced to its `test_details` (name, status) pairs, and a test's outcomes
are the statuses recorded under its name, in scan order. -/
def testOutcomes (runs : List (List (List Char × List Char))) (name : List Char) :
    List (List Char) :=
  ((runs.flatten).filter (fun e => e.1 = name)).map (fun e => e.2)

/-- The flakiness decision of `_analyze_flaky_tests` (lines 249-262): at
least 5 recorded outcomes, at least one pass and one fail, and
`min(pass_count, fail_count) / len(outcomes) >= 0.2`. -/
def isFlaky (outcomes : List (List Char)) : Bool :=
  5 ≤ outcomes.length &&
    (0 < outcomes.count "passed".data && 0 < outcomes.count "failed".data &&
      ((1 : ℚ)/5 ≤
        (min (outcomes.count "passed".data) (outcomes.count "failed".data) : ℚ) /
          (outcomes.length : ℚ)))

/-- The `flaky_tests` list built by the scan loop (lines 249-262), keeping
each flagged test's name and outcomes. -/
def flakyTests (test_outcomes : List (List Char × List (List Char))) :
    List (List Char × List (List Char)) :=
  test_outcomes.filter (fun t => isFlaky t.2)

/-- A concrete insight of severity high and confidence 0.5 (seen first). -/
def c3first : AIInsight :=
  { category := "quality".data, title := "first".data, description := [],
    severity := "high".data, recommendations := [], confidence := 1/2 }

/-- A concrete insight of severity high and confidence 0.9 (seen second). -/
def c3second : AIInsight :=
  { category := "quality".data, title := "second".data, description := [],
    severity := "high".data, recommendations := [], confidence := 9/10 }

end Dashboard

namespace AdaptiveEngine

/-- The confidence computation of `_create_rule_for_pattern_group` (lines
192-194), as a function of the group's average frequency. -/
def ruleConfidence (avg_frequency : ℚ) : ℚ := min (avg_frequency / 10) 1

/-- The average frequency of a pattern group (lines 192-193). -/
def avgFrequency (patterns : List TestFailurePattern) : ℚ :=
  ((patterns.map (fun p => p.frequency)).sum : ℚ) / (patterns.length : ℚ)

/-- The failure record of the spec's end-to-end scenario. -/
def c1record : TestResultRecord :=
  { test_name := "test_product_search".data
    status := "failed".data
    error_message := "Timeout waiting for selector '#search-results'".data }

/-- The one pattern that scenario leaves in the store: identity
(test_product_search, timing_issue, #search-results), frequency 3, last
refreshed at the third recording time. -/
def c1pattern : TestFailurePattern :=
  { test_name := "test_product_search".data
    failure_type := "timing_issue".data
    error_message := "Timeout waiting for selector '#search-results'".data
    element_selector := some "#search-results".data
    timestamp := 2
    frequency := 3
    context :=
      { browser := "unknown".data, viewport := [], duration := 0,
        url := [], screenshot := [] } }

/-- The store after recording `c1record` three times (at times 0, 1, 2)
into an empty store. -/
def c1store : List TestFailurePattern :=
  record_test_failure (record_test_failure (record_test_failure [] c1record 0) c1record 1)
    c1record 2

/-- The pattern `record_test_failure` extracts from `c1record` at time 0:
frequency 1, before any repeat. -/
def c2patternA : TestFailurePattern :=
  { test_name := "test_product_search".data
    failure_type := "timing_issue".data
    error_message := "Timeout waiting for selector '#search-results'".data
    element_selector := some "#search-results".data
    timestamp := 0
    frequency := 1
    context :=
      { browser := "unknown".data, viewport := [], duration := 0,
        url := [], screenshot := [] } }

/-- A failure record with the same test name and kind as `c1record` but a
different extracted locator. -/
def c2recordB : TestResultRecord :=
  { test_name := "test_product_search".data
    status := "failed".data
    error_message := "Timeout waiting for selector '#cart'".data }

/-- The pattern extracted from `c2recordB` at time 1. -/
def c2patternB : TestFailurePattern :=
  { test_name := "test_product_search".data
    failure_type := "timing_issue".data
    error_message := "Timeout waiting for selector '#cart'".data
    element_selector := some "#cart".data
    timestamp := 1
    frequency := 1
    context :=
      { browser := "unknown".data, viewport := [], duration := 0,
        url := [], screenshot := [] } }

/-- C4: classify is a total, deterministic function of the message text;
matching is case-insensitive substring matching against the fixed ordered
table, first matching row wins; any message containing "timeout" or
"element not found" (in any case) classifies as timing_issue; a message
matching no row returns unknown; the result is always one of the seven
kinds. -/
theorem C4_classifier_contract (msg : List Char) :
    ((pyIn "timeout".data (lowerStr msg) = true ∨
        pyIn "element not found".data (lowerStr msg) = true) →
      _classify_failure msg = "timing_issue".data) ∧
    ((∀ w ∈ ["timeout", "wait", "element not found", "selector", "locator",
        "element", "network", "connection", "request", "assertion", "expected",
        "actual", "permission", "access", "forbidden", "data", "invalid",
        "null"].map String.data, pyIn w (lowerStr msg) = false) →
      _classify_failure msg = "unknown".data) ∧
    _classify_failure msg ∈ ["timing_issue".data, "element_selector".data,
      "network_issue".data, "assertion_failure".data, "permission_issue".data,
      "data_issue".data, "unknown".data] := by
  refine ⟨?_, ?_, ?_⟩
  · intro h
    rcases h with h | h <;> simp [_classify_failure, h]
  · intro h
    simp only [List.map_cons, List.map_nil, List.mem_cons, List.mem_singleton,
      forall_eq_or_imp, forall_eq] at h
    obtain ⟨h1, h2, h3, h4, h5, h6, h7, h8, h9, h10, h11, h12, h13, h14, h15,
      h16, h17, h18⟩ := h
    simp [_classify_failure, h1, h2, h3, h4, h5, h6, h7, h8, h9, h10, h11,
      h12, h13, h14, h15, h16, h17, h18]
  · simp only [_classify_failure]
    split_ifs <;> simp

/-- C4 witness: the classifier at concrete messages. -/
theorem C4_classifier_contract_witness :
    _classify_failure "TIMEOUT after 30s on page".data = "timing_issue".data ∧
    _classify_failure "weird".data = "unknown".data :=
  ⟨(C4_classifier_contract "TIMEOUT after 30s on page".data).1 (Or.inl (by decide)),
   (C4_classifier_contract "weird".data).2.1 (by decide)⟩

/-- C5: the rule confidence is computed as min(average group frequency / 10,
1.0); it is monotone non-decreasing in the average frequency and equals
exactly 1 whenever the average frequency is at least 10. -/
theorem C5_confidence_saturating (failure_type nowStr : List Char) (now : Nat)
    (patterns : List TestFailurePattern) (a b : ℚ) :
    (_create_rule_for_pattern_group failure_type patterns nowStr now).confidence
      = ruleConfidence (avgFrequency patterns) ∧
    (a ≤ b → ruleConfidence a ≤ ruleConfidence b) ∧
    (10 ≤ a → ruleConfidence a = 1) := by
  refine ⟨?_, ?_, ?_⟩
  · simp only [_create_rule_for_pattern_group, ruleConfidence, avgFrequency]
    rw [Nat.cast_list_sum, List.map_map]
    rfl
  · intro hab
    have h : a / 10 ≤ b / 10 := by linarith
    exact le_min ((min_le_left _ _).trans h) (min_le_right _ _)
  · intro ha
    have h : (1 : ℚ) ≤ a / 10 := by linarith
    exact min_eq_right h

/-- C5 witness: the confidence scale at concrete average frequencies. -/
theorem C5_confidence_saturating_witness :
    ruleConfidence 3 ≤ ruleConfidence 5 ∧ ruleConfidence 12 = 1 :=
  ⟨(C5_confidence_saturating [] [] 0 [] 3 5).2.1 (by norm_num),
   (C5_confidence_saturating [] [] 0 [] 12 0).2.2 (by norm_num)⟩

/-- C6: `analyze_patterns_and_create_rules` never returns a rule below the
confidence threshold, and the updated persistent rule list gains only
rules meeting the threshold. -/
theorem C6_confidence_threshold (store : List TestFailurePattern)
    (adaptive_rules : List AdaptiveRule) (nowStr : List Char) (now : Nat)
    (r : AdaptiveRule) :
    (r ∈ (analyze_patterns_and_create_rules store adaptive_rules nowStr now).1 →
      confidence_threshold ≤ r.confidence) ∧
    (r ∈ (analyze_patterns_and_create_rules store adaptive_rules nowStr now).2 →
      r ∈ adaptive_rules ∨ confidence_threshold ≤ r.confidence) := by
  constructor
  · intro h
    simp only [analyze_patterns_and_create_rules, List.mem_filterMap] at h
    obtain ⟨k, _, hf⟩ := h
    split_ifs at hf with hc
    cases hf
    exact hc
  · intro h
    simp only [analyze_patterns_and_create_rules, List.mem_append] at h
    rcases h with h | h
    · exact Or.inl h
    · refine Or.inr ?_
      simp only [List.mem_filterMap] at h
      obtain ⟨k, _, hf⟩ := h
      split_ifs at hf with hc
      cases hf
      exact hc

end AdaptiveEngine

namespace AdaptiveEngine

/-- C7: for each rule kind with a transform, a text already containing the
kind's idempotence marker (the explicit-wait construct, the data-testid
mention, the retry mention) is returned unchanged and reported not applied,
so applying the rule twice equals applying it once. -/
theorem C7_rule_application_idempotent (rule : AdaptiveRule) (content : List Char) :
    (rule.pattern = "timing_issue".data →
      pyIn "page.wait_for_selector".data content = true →
      _apply_rule_to_content content rule = (content, false) ∧
        _apply_rule_to_content (_apply_rule_to_content content rule).1 rule
          = _apply_rule_to_content content rule) ∧
    (rule.pattern = "element_selector".data →
      pyIn "data-testid".data content = true →
      _apply_rule_to_content content rule = (content, false) ∧
        _apply_rule_to_content (_apply_rule_to_content content rule).1 rule
          = _apply_rule_to_content content rule) ∧
    (rule.pattern = "network_issue".data →
      pyIn "retry".data (lowerStr content) = true →
      _apply_rule_to_content content rule = (content, false) ∧
        _apply_rule_to_content (_apply_rule_to_content content rule).1 rule
          = _apply_rule_to_content content rule) := by
  refine ⟨?_, ?_, ?_⟩
  · intro hp hm
    have h1 : _apply_rule_to_content content rule = (content, false) := by
      simp [_apply_rule_to_content, hp, hm]
    exact ⟨h1, by rw [h1]; exact h1⟩
  · intro hp hm
    have h1 : _apply_rule_to_content content rule = (content, false) := by
      have hne : ("element_selector".data = "timing_issue".data) = False := by decide
      simp [_apply_rule_to_content, hp, hm, hne]
    exact ⟨h1, by rw [h1]; exact h1⟩
  · intro hp hm
    have h1 : _apply_rule_to_content content rule = (content, false) := by
      have hne1 : ("network_issue".data = "timing_issue".data) = False := by decide
      have hne2 : ("network_issue".data = "element_selector".data) = False := by decide
      simp [_apply_rule_to_content, hp, hm, hne1, hne2]
    exact ⟨h1, by rw [h1]; exact h1⟩

/-- C7 witness: concrete texts containing each marker are left unchanged. -/
theorem C7_rule_application_idempotent_witness :
    let timingRule : AdaptiveRule :=
      { rule_id := "t".data, pattern := "timing_issue".data, suggested_fix := [],
        confidence := 1, success_rate := 0, created_at := 0, last_applied := none }
    let netRule : AdaptiveRule :=
      { rule_id := "n".data, pattern := "network_issue".data, suggested_fix := [],
        confidence := 1, success_rate := 0, created_at := 0, last_applied := none }
    _apply_rule_to_content "page.wait_for_selector(x)\npage.click(y)".data timingRule
        = ("page.wait_for_selector(x)\npage.click(y)".data, false) ∧
    _apply_rule_to_content "import Retry\nrequests.get(url)".data netRule
        = ("import Retry\nrequests.get(url)".data, false) :=
  ⟨((C7_rule_application_idempotent _ _).1 rfl (by decide)).1,
   ((C7_rule_application_idempotent _ _).2.2 rfl (by decide)).1⟩

end AdaptiveEngine

namespace AdaptiveEngine

/-- A quote character is not in the CSS-selector class. -/
theorem isSelChar_of_quote (c : Char) (h : isQuoteChar c = true) :
    isSelChar c = false := by
  simp only [isQuoteChar, Bool.or_eq_true, decide_eq_true_eq] at h
  rcases h with h | h <;> subst h <;> decide

/-- `takeWhile` runs through a block that satisfies the predicate. -/
theorem takeWhile_append_all (p : Char → Bool) (l m : List Char)
    (h : ∀ c ∈ l, p c = true) :
    (l ++ m).takeWhile p = l ++ m.takeWhile p := by
  induction l with
  | nil => simp
  | cons c cs ih => simp_all [List.takeWhile]

/-- `dropWhile` runs through a block that satisfies the predicate. -/
theorem dropWhile_append_all (p : Char → Bool) (l m : List Char)
    (h : ∀ c ∈ l, p c = true) :
    (l ++ m).dropWhile p = m.dropWhile p := by
  induction l with
  | nil => simp
  | cons c cs ih => simp_all [List.dropWhile]

/-- Evaluation of the generic quoted-CSS-selector matcher at the opening
quote of a well-formed quoted token. -/
theorem matchCssAt_eval (q q' : Char) (run v : List Char)
    (hq : isQuoteChar q = true) (hq' : isQuoteChar q' = true) (hrun : run ≠ [])
    (hall : ∀ c ∈ run, isSelChar c = true) :
    matchCssAt (q :: (run ++ q' :: v)) = some run := by
  have htake : (run ++ q' :: v).takeWhile isSelChar = run := by
    rw [takeWhile_append_all _ _ _ hall]
    simp [List.takeWhile, isSelChar_of_quote q' hq']
  have hdrop : (run ++ q' :: v).dropWhile isSelChar = q' :: v := by
    rw [dropWhile_append_all _ _ _ hall]
    simp [List.dropWhile, isSelChar_of_quote q' hq']
  simp [matchCssAt, hq, htake, hdrop, hrun, hq']

/-- A successful anchored match at some suffix makes the left-to-right
search succeed. -/
theorem reSearch_isSome_of_suffix (m : List Char → Option (List Char))
    (u s : List Char) (hs : s ≠ []) (h : (m s).isSome) :
    (reSearch m (u ++ s)).isSome := by
  induction u with
  | nil =>
    cases s with
    | nil => exact absurd rfl hs
    | cons c cs =>
      simp only [List.nil_append, reSearch]
      cases hm : m (c :: cs) with
      | none => rw [hm] at h; cases h
      | some r => simp
  | cons c cs ih =>
    simp only [List.cons_append, reSearch]
    cases hm : m (c :: (cs ++ s)) with
    | none => exact ih
    | some r => simp

/-- C10: locator extraction over-matches — any message containing a quoted
token made only of CSS-selector-class characters (word characters, '#',
'.', '[', ']', '@', '-' or ':') yields some extracted locator, regardless
of whether any locator/element/selector phrase is present; consequently a
failed record with such a message acquires a non-absent element_selector
in its pattern identity. -/
theorem C10_locator_overmatch (u v run : List Char) (q q' : Char)
    (hq : isQuoteChar q = true) (hq' : isQuoteChar q' = true)
    (hrun : run ≠ []) (hall : ∀ c ∈ run, isSelChar c = true) :
    (_extract_element_selector (u ++ q :: (run ++ q' :: v))).isSome ∧
    ∀ (rec : TestResultRecord) (t : Nat), rec.status = "failed".data →
      rec.error_message = u ++ q :: (run ++ q' :: v) →
      ∃ p, _extract_failure_pattern rec t = some p ∧ p.element_selector.isSome := by
  have hcss : (reSearch matchCssAt (u ++ q :: (run ++ q' :: v))).isSome := by
    apply reSearch_isSome_of_suffix _ u _ (by simp)
    rw [matchCssAt_eval q q' run v hq hq' hrun hall]
    simp
  have hmain : (_extract_element_selector (u ++ q :: (run ++ q' :: v))).isSome := by
    unfold _extract_element_selector
    cases h1 : reSearch (matchPhraseAt "locator".data) (u ++ q :: (run ++ q' :: v)) with
    | some r => simp
    | none =>
      cases h2 : reSearch (matchPhraseAt "element".data) (u ++ q :: (run ++ q' :: v)) with
      | some r => simp
      | none =>
        cases h3 : reSearch (matchPhraseAt "selector".data) (u ++ q :: (run ++ q' :: v)) with
        | some r => simp
        | none => exact hcss
  refine ⟨hmain, ?_⟩
  intro rec t hst hmsg
  simp only [_extract_failure_pattern]
  rw [if_neg (by simp [hst])]
  exact ⟨_, rfl, by simpa [hmsg] using hmain⟩

/-- C10 witness: an assertion message quoting only an expected value still
yields a locator. -/
theorem C10_locator_overmatch_witness :
    (_extract_element_selector "expected 'foo'".data).isSome ∧
    ∃ p, _extract_failure_pattern
        { test_name := "t".data, status := "failed".data,
          error_message := "expected 'foo'".data } 0 = some p ∧
      p.element_selector.isSome := by
  have h := C10_locator_overmatch "expected ".data [] "foo".data '\'' '\''
    (by decide) (by decide) (by decide) (by decide)
  refine ⟨h.1, h.2 _ 0 rfl rfl⟩

end AdaptiveEngine

namespace AdaptiveEngine

/-- For the scenario store, the rule synthesis returns no rules at any
timestamp: the one qualifying group (timing_issue, average frequency 3) gets
confidence 3/10, below the 0.7 threshold, and is discarded. -/
theorem c1_analyze_empty (nowStr : List Char) (now : Nat) :
    (analyze_patterns_and_create_rules c1store [] nowStr now).1 = [] := by
  have hs : c1store = [c1pattern] := by decide
  rw [hs, List.eq_nil_iff_forall_not_mem]
  intro r hr
  simp only [analyze_patterns_and_create_rules, List.mem_filterMap] at hr
  obtain ⟨k, hk, hf⟩ := hr
  have hkeys : dedupFirst (([c1pattern].filter
      (fun p => min_pattern_frequency ≤ p.frequency)).map (fun p => p.failure_type))
      = ["timing_issue".data] := by decide
  rw [hkeys] at hk
  simp only [List.mem_singleton] at hk
  subst hk
  have hgrp : ([c1pattern].filter (fun p => min_pattern_frequency ≤ p.frequency)).filter
      (fun p => p.failure_type = "timing_issue".data) = [c1pattern] := by decide
  rw [hgrp] at hf
  have hconf : (_create_rule_for_pattern_group "timing_issue".data [c1pattern]
      nowStr now).confidence = 3/10 := by
    simp only [_create_rule_for_pattern_group]
    have hsum : ((([c1pattern].map (fun p => p.frequency)).sum : Nat) : ℚ) = 3 := by
      norm_num [c1pattern]
    rw [hsum]
    norm_num
  rw [if_neg] at hf
  · cases hf
  · rw [hconf]
    norm_num [confidence_threshold]

/-- C1 counterexample: the scenario's store is exactly the expected single
pattern (frequency 3, timing_issue, locator #search-results), yet the
subsequent rule synthesis with the default thresholds returns no rule at
all — not one naming #search-results. -/
theorem C1_end_to_end_counterexample :
    c1store = [c1pattern] ∧
    (analyze_patterns_and_create_rules c1store [] "20240101_000000".data 3).1 = [] :=
  ⟨by decide, c1_analyze_empty _ _⟩

/-- C1 (amended): recording the failure record three times yields exactly
one stored pattern with frequency 3, kind timing_issue and locator
#search-results, and the subsequent rule synthesis with default thresholds
returns no rules and leaves the rule list empty, the group's confidence
being 3/10 < 0.7. -/
theorem C1_three_timeouts_one_pattern_no_rule :
    c1store = [c1pattern] ∧
    c1pattern.frequency = 3 ∧
    c1pattern.failure_type = "timing_issue".data ∧
    c1pattern.element_selector = some "#search-results".data ∧
    ruleConfidence (avgFrequency c1store) = 3/10 ∧
    (3 : ℚ)/10 < confidence_threshold ∧
    analyze_patterns_and_create_rules c1store [] "20240101_000000".data 3 = ([], []) := by
  have hs : c1store = [c1pattern] := by decide
  refine ⟨hs, by decide, by decide, by decide, ?_, ?_, ?_⟩
  · rw [hs]
    simp only [ruleConfidence, avgFrequency]
    norm_num [c1pattern]
  · norm_num [confidence_threshold]
  · have h1 := c1_analyze_empty "20240101_000000".data 3
    have h2 : (analyze_patterns_and_create_rules c1store [] "20240101_000000".data 3).2
        = [] ++ (analyze_patterns_and_create_rules c1store [] "20240101_000000".data 3).1 :=
      rfl
    rw [Prod.ext_iff]
    exact ⟨h1, by rw [h2, h1]; rfl⟩

end AdaptiveEngine

namespace Dashboard

/-- C3: the final insight ordering at a concrete pair of equal-severity
insights.  The sort leaves the lower-confidence insight first: within equal
severity the order is by confidence ascending, because the negated
confidence in the sort key and `reverse=True` cancel out — not descending
as the spec states. -/
theorem C3_severity_tiebreak_evaluation :
    sortInsights [c3first, c3second] = [c3first, c3second] ∧
    c3first.severity = c3second.severity ∧
    c3first.confidence < c3second.confidence := by
  have hs : _severity_score "high".data = 3 := by decide
  have hk : keyLe (insightKey c3second) (insightKey c3first) = true := by
    simp only [insightKey, c3first, c3second, hs, keyLe]
    norm_num
  refine ⟨?_, rfl, by norm_num [c3first, c3second]⟩
  simp [sortInsights, insertDesc, hk]

/-- C9: a test is flagged flaky exactly when it has at least 5 recorded
outcomes with at least one pass and one fail and
min(pass_count, fail_count) / total ≥ 0.2; the outcome lists
[pass,pass,fail,pass,fail] (ratio 0.4) and the boundary case
[pass,pass,pass,pass,fail] (ratio exactly 0.2) are both flagged. -/
theorem C9_flaky_detection (l : List (List Char × List (List Char)))
    (t : List Char × List (List Char)) :
    (t ∈ flakyTests l ↔ t ∈ l ∧ 5 ≤ t.2.length ∧
      0 < t.2.count "passed".data ∧ 0 < t.2.count "failed".data ∧
      (1 : ℚ)/5 ≤ (min (t.2.count "passed".data) (t.2.count "failed".data) : ℚ) /
        (t.2.length : ℚ)) ∧
    isFlaky (["passed", "passed", "failed", "passed", "failed"].map String.data) = true ∧
    isFlaky (["passed", "passed", "passed", "passed", "failed"].map String.data) = true := by
  refine ⟨?_, ?_, ?_⟩
  · simp [flakyTests, List.mem_filter, isFlaky, Bool.and_eq_true, decide_eq_true_eq,
      and_assoc]
  · have hp : ((["passed", "passed", "failed", "passed", "failed"].map
        String.data).count "passed".data) = 3 := by decide
    have hf : ((["passed", "passed", "failed", "passed", "failed"].map
        String.data).count "failed".data) = 2 := by decide
    have hl : (["passed", "passed", "failed", "passed", "failed"].map
        String.data).length = 5 := by decide
    simp only [isFlaky, hp, hf, hl]
    norm_num
  · have hp : ((["passed", "passed", "passed", "passed", "failed"].map
        String.data).count "passed".data) = 4 := by decide
    have hf : ((["passed", "passed", "passed", "passed", "failed"].map
        String.data).count "failed".data) = 1 := by decide
    have hl : (["passed", "passed", "passed", "passed", "failed"].map
        String.data).length = 5 := by decide
    simp only [isFlaky, hp, hf, hl]
    norm_num

end Dashboard

namespace AdaptiveEngine

/-- Inserting a pattern changes the stored identities not at all (update in
place) or by appending the new identity at the end. -/
theorem insertPattern_identities (fp : TestFailurePattern) (now : Nat)
    (store : List TestFailurePattern) :
    (insertPattern fp now store).map patternIdentity = store.map patternIdentity ∨
    (insertPattern fp now store).map patternIdentity
      = store.map patternIdentity ++ [patternIdentity fp] := by
  induction store with
  | nil => simp [insertPattern]
  | cons p ps ih =>
    simp only [insertPattern]
    split_ifs with h
    · left
      simp [patternIdentity]
    · rcases ih with h1 | h1
      · left
        simp [List.map_cons, h1]
      · right
        simp [List.map_cons, h1]

/-- Inserting a pattern preserves distinctness of the stored identities. -/
theorem nodup_insertPattern (fp : TestFailurePattern) (now : Nat)
    (store : List TestFailurePattern)
    (h : (store.map patternIdentity).Nodup) :
    ((insertPattern fp now store).map patternIdentity).Nodup := by
  induction store with
  | nil => simp [insertPattern]
  | cons p ps ih =>
    simp only [List.map_cons, List.nodup_cons] at h
    obtain ⟨hp, hps⟩ := h
    simp only [insertPattern]
    split_ifs with heq
    · simp only [List.map_cons, List.nodup_cons]
      exact ⟨by simpa [patternIdentity] using hp, hps⟩
    · simp only [List.map_cons, List.nodup_cons]
      refine ⟨?_, ih hps⟩
      rcases insertPattern_identities fp now ps with h1 | h1
    
      · rw [h1]
        exact hp
      · rw [h1]
        simp only [List.mem_append, List.mem_singleton]
        rintro (hin | hfp)
        · exact hp hin
        · exact heq hfp

/-- A pattern extracted from a raw record starts at frequency 1. -/
theorem extract_frequency_one (r : TestResultRecord) (t : Nat)
    (p : TestFailurePattern) (h : _extract_failure_pattern r t = some p) :
    p.frequency = 1 := by
  simp only [_extract_failure_pattern] at h
  split_ifs at h
  cases h
  rfl

/-- C2: after any sequence of record_test_failure calls from the empty
store, the stored identities are pairwise distinct; recording two failures
with identical identity leaves exactly one pattern of frequency 2; and
recording two failures with the same name and kind but different locators
leaves two distinct patterns, each of frequency 1. -/
theorem C2_pattern_store_identity (inputs : List (TestResultRecord × Nat))
    (r1 r2 : TestResultRecord) (t1 t2 : Nat) (p1 p2 : TestFailurePattern) :
    ((inputs.foldl (fun s i => record_test_failure s i.1 i.2) []).map
        patternIdentity).Nodup ∧
    (_extract_failure_pattern r1 t1 = some p1 →
      _extract_failure_pattern r2 t2 = some p2 →
      patternIdentity p1 = patternIdentity p2 →
      record_test_failure (record_test_failure [] r1 t1) r2 t2
        = [{ p1 with frequency := 2, timestamp := t2 }]) ∧
    (_extract_failure_pattern r1 t1 = some p1 →
      _extract_failure_pattern r2 t2 = some p2 →
      p1.test_name = p2.test_name → p1.failure_type = p2.failure_type →
      p1.element_selector ≠ p2.element_selector →
      record_test_failure (record_test_failure [] r1 t1) r2 t2 = [p1, p2] ∧
        p1.frequency = 1 ∧ p2.frequency = 1) := by
  refine ⟨?_, ?_, ?_⟩
  · have master : ∀ (ins : List (TestResultRecord × Nat))
        (store : List TestFailurePattern), (store.map patternIdentity).Nodup →
        ((ins.foldl (fun s i => record_test_failure s i.1 i.2) store).map
          patternIdentity).Nodup := by
      intro ins
      induction ins with
      | nil => intro store h; simpa using h
      | cons i is ih =>
        intro store h
        simp only [List.foldl_cons]
        apply ih
        unfold record_test_failure
        cases hext : _extract_failure_pattern i.1 i.2 with
        | none => exact h
        | some fp => exact nodup_insertPattern fp i.2 store h
    exact master inputs [] (by simp)
  · intro h1 h2 hid
    have hfirst : record_test_failure [] r1 t1 = [p1] := by
      unfold record_test_failure
      rw [h1]
      rfl
    rw [hfirst]
    unfold record_test_failure
    rw [h2]
    show insertPattern p2 t2 [p1] = _
    simp only [insertPattern]
    rw [if_pos hid, extract_frequency_one r1 t1 p1 h1]
  · intro h1 h2 _ _ hsel
    have hid : patternIdentity p1 ≠ patternIdentity p2 := by
      intro h
      exact hsel (congrArg (fun x => x.2.2) h)
    refine ⟨?_, extract_frequency_one r1 t1 p1 h1, extract_frequency_one r2 t2 p2 h2⟩
    have hfirst : record_test_failure [] r1 t1 = [p1] := by
      unfold record_test_failure
      rw [h1]
      rfl
    rw [hfirst]
    unfold record_test_failure
    rw [h2]
    show insertPattern p2 t2 [p1] = _
    simp only [insertPattern]
    rw [if_neg hid]

/-- C2 witness: the invariant and both concrete behaviours at the scenario
records. -/
theorem C2_pattern_store_identity_witness :
    (([(c1record, 0), (c1record, 1), (c2recordB, 2)].foldl
        (fun s i => record_test_failure s i.1 i.2) []).map patternIdentity).Nodup ∧
    record_test_failure (record_test_failure [] c1record 0) c1record 1
      = [{ c2patternA with frequency := 2, timestamp := 1 }] ∧
    record_test_failure (record_test_failure [] c1record 0) c2recordB 1
        = [c2patternA, c2patternB] ∧
      c2patternA.frequency = 1 ∧ c2patternB.frequency = 1 :=
  ⟨(C2_pattern_store_identity [(c1record, 0), (c1record, 1), (c2recordB, 2)]
      c1record c1record 0 1 c2patternA c2patternA).1,
   (C2_pattern_store_identity [] c1record c1record 0 1 c2patternA
      { c2patternA with timestamp := 1 }).2.1 (by decide) (by decide) (by decide),
   (C2_pattern_store_identity [] c1record c2recordB 0 1 c2patternA c2patternB).2.2
      (by decide) (by decide) (by decide) (by decide) (by decide)⟩

end AdaptiveEngine

namespace AdaptiveEngine

/-- A prefix of a list is a prefix of any extension. -/
theorem isPrefixOf_append_left (l u v : List Char) (h : l.isPrefixOf u = true) :
    l.isPrefixOf (u ++ v) = true := by
  rw [ List.isPrefixOf_iff_prefix] at h ⊢
  exact h.trans (u.prefix_append v)

/-- Occurrences are super-additive across concatenation: every occurrence
inside either part is an occurrence of the whole. -/
theorem occCount_append_add_le (n u v : List Char) :
    occCount n u + occCount n v ≤ occCount n (u ++ v) := by
  induction u with
  | nil => simp [occCount]
  | cons c cs ih =>
    simp only [List.cons_append, occCount, List.append_eq]
    by_cases hp : n.isPrefixOf (c :: cs) = true
    · have hp2 : n.isPrefixOf (c :: (cs ++ v)) = true := by
        simpa using isPrefixOf_append_left n (c :: cs) v hp
      rw [if_pos hp, if_pos hp2]
      omega
    · rw [if_neg hp]
      by_cases hq : n.isPrefixOf (c :: (cs ++ v)) = true
      · rw [if_pos hq]
        omega
      · rw [if_neg hq]
        omega

/-- A needle absent from a concatenation is absent from both parts. -/
theorem occCount_append_split_zero (n u v : List Char)
    (h : occCount n (u ++ v) = 0) : occCount n u = 0 ∧ occCount n v = 0 := by
  have := occCount_append_add_le n u v
  omega

/-- A nonempty needle occurs in any list it heads. -/
theorem occCount_self_append (n x : List Char) (hn : n ≠ []) :
    1 ≤ occCount n (n ++ x) := by
  have hpre : n.isPrefixOf (n ++ x) = true := by
    rw [ List.isPrefixOf_iff_prefix]
    exact n.prefix_append x
  cases n with
  | nil => exact absurd rfl hn
  | cons c cs =>
    simp only [List.cons_append] at hpre ⊢
    simp only [occCount, List.append_eq]
    rw [if_pos hpre]
    omega

/-- Replacing a needle that does not occur changes nothing. -/
theorem pyReplace_of_occCount_zero (old new s : List Char)
    (h : occCount old s = 0) : pyReplace old new s = s := by
  induction s with
  | nil => simp [pyReplace]
  | cons c cs ih =>
    simp only [occCount] at h
    by_cases hp : old.isPrefixOf (c :: cs) = true
    · rw [if_pos hp] at h
      omega
    · rw [if_neg hp] at h
      simp only [pyReplace]
      rw [if_neg (fun hand => hp hand.2)]
      rw [ih (by omega)]

/-- On a text with exactly one occurrence of the (nonempty) needle,
`str.replace` rewrites exactly that occurrence: the text splits as
`p ++ old ++ suf` with the needle absent from `p` and `suf`, and the result
is `p ++ new ++ suf`. -/
theorem pyReplace_single_occ (old new : List Char) (hold : old ≠ []) :
    ∀ s : List Char, occCount old s = 1 →
      ∃ p suf, s = p ++ old ++ suf ∧ occCount old p = 0 ∧ occCount old suf = 0 ∧
        pyReplace old new s = p ++ new ++ suf := by
  intro s
  induction s with
  | nil => intro h; simp [occCount] at h
  | cons c cs ih =>
    intro h
    simp only [occCount] at h
    by_cases hp : old.isPrefixOf (c :: cs) = true
    · rw [if_pos hp] at h
      have hcs : occCount old cs = 0 := by omega
      obtain ⟨t, ht⟩ := ( List.isPrefixOf_iff_prefix).mp hp
      have htz : occCount old t = 0 := by
        cases old with
        | nil => exact absurd rfl hold
        | cons o os =>
          have ht' : o :: (os ++ t) = c :: cs := by simpa using ht
          injection ht' with h1 h2
          rw [← h2] at hcs
          have := occCount_append_add_le (o :: os) os t
          omega
      have hdrop : (c :: cs).drop old.length = t := by
        rw [← ht]
        exact List.drop_left _ _
      refine ⟨[], t, by simpa using ht.symm, by simp [occCount], htz, ?_⟩
      simp only [pyReplace]
      rw [if_pos ⟨hold, hp⟩, hdrop, pyReplace_of_occCount_zero old new t htz]
      simp
    · rw [if_neg hp] at h
      obtain ⟨p, suf, hs, hp0, hsuf0, hrep⟩ := ih (by omega)
      have hnotp : old.isPrefixOf (c :: p) = false := by
        cases hx : old.isPrefixOf (c :: p) with
        | false => rfl
        | true =>
          exfalso
          have hlift := isPrefixOf_append_left old (c :: p) (old ++ suf) hx
          have heq : (c :: p) ++ (old ++ suf) = c :: cs := by
            rw [hs]
            simp
          rw [heq] at hlift
          exact hp hlift
      refine ⟨c :: p, suf, by simp [hs], ?_, hsuf0, ?_⟩
      · simp [occCount, hnotp, hp0]
      · simp only [pyReplace]
        rw [if_neg (fun hand => hp hand.2), hrep]
        simp

end AdaptiveEngine

namespace AdaptiveEngine

/-- C8: on a source text containing exactly one `page.click(` invocation
and no explicit-wait construct, the timing_issue transform reports the rule
applied and produces the text with exactly one explicit-wait statement
injected immediately before that click invocation: the text splits around
the unique click as `p ++ click ++ suf`, the output is the same split with
the wait statement (and its indentation) inserted right before the click,
and neither a click invocation nor the wait construct occurs anywhere in
`p` or `suf`. -/
theorem C8_timing_wait_injection (rule : AdaptiveRule) (content : List Char)
    (hrule : rule.pattern = "timing_issue".data)
    (hone : occCount "page.click(".data content = 1)
    (hnowait : occCount "page.wait_for_selector".data content = 0) :
    ∃ p suf,
      content = p ++ "page.click(".data ++ suf ∧
      _apply_rule_to_content content rule
        = (p ++ "page.wait_for_selector(selector, timeout=30000)\n        page.click(".data
            ++ suf, true) ∧
      occCount "page.click(".data p = 0 ∧ occCount "page.click(".data suf = 0 ∧
      occCount "page.wait_for_selector".data p = 0 ∧
      occCount "page.wait_for_selector".data suf = 0 := by
  obtain ⟨p, suf, hs, hp0, hsuf0, hrep⟩ :=
    pyReplace_single_occ "page.click(".data
      "page.wait_for_selector(selector, timeout=30000)\n        page.click(".data
      (by decide) content hone
  have hnowait' : occCount "page.wait_for_selector".data
      ((p ++ "page.click(".data) ++ suf) = 0 := by
    rw [hs] at hnowait
    exact hnowait
  have hwsplit1 := occCount_append_split_zero "page.wait_for_selector".data
    (p ++ "page.click(".data) suf hnowait'
  have hwsplit2 := occCount_append_split_zero "page.wait_for_selector".data
    p "page.click(".data hwsplit1.1
  have hg1 : pyIn "page.wait_for_selector".data content = false := by
    simp [pyIn, hnowait]
  have hg2 : pyIn "click(".data content = true := by
    have hlit : ("page.click(".data : List Char) = "page.".data ++ "click(".data := by
      decide
    have hself := occCount_self_append "click(".data suf (by decide)
    have hr1 := occCount_append_add_le "click(".data "page.".data
      ("click(".data ++ suf)
    have hr2 := occCount_append_add_le "click(".data p
      ("page.".data ++ ("click(".data ++ suf))
    have hform : content = p ++ ("page.".data ++ ("click(".data ++ suf)) := by
      rw [hs, hlit]
      simp
    have hnz : occCount "click(".data
        (p ++ ("page.".data ++ ("click(".data ++ suf))) ≠ 0 := by
      omega
    rw [hform]
    simpa [pyIn] using hnz
  refine ⟨p, suf, hs, ?_, hp0, hsuf0, hwsplit2.1, hwsplit1.2⟩
  simp only [_apply_rule_to_content, hrule, hg1, hg2]
  simp [hrep]

/-- C8 witness: the transform at a concrete test body with one click and
no wait. -/
theorem C8_timing_wait_injection_witness :
    ∃ p suf,
      "def test(page):\n        page.click(btn)\n".data
        = p ++ "page.click(".data ++ suf ∧
      _apply_rule_to_content "def test(page):\n        page.click(btn)\n".data
          { rule_id := "r".data, pattern := "timing_issue".data, suggested_fix := [],
            confidence := 1, success_rate := 0, created_at := 0, last_applied := none }
        = (p ++ "page.wait_for_selector(selector, timeout=30000)\n        page.click(".data
            ++ suf, true) ∧
      occCount "page.click(".data p = 0 ∧ occCount "page.click(".data suf = 0 ∧
      occCount "page.wait_for_selector".data p = 0 ∧
      occCount "page.wait_for_selector".data suf = 0 :=
  C8_timing_wait_injection
    { rule_id := "r".data, pattern := "timing_issue".data, suggested_fix := [],
      confidence := 1, success_rate := 0, created_at := 0, last_applied := none }
    "def test(page):\n        page.click(btn)\n".data rfl (by decide) (by decide)

end AdaptiveEngine
